import Mathlib

/-!
Shallow embedding of the heart-failure data-preparation pipeline
(src/preprocessing/automate_jesika.py) and proofs about its claims.

Conventions of the embedding:
  - pandas floats are idealised as exact rationals; a missing value (NaN)
    is an explicit `Val.nan` and any comparison with it is false, as in pandas;
  - a DataFrame is its column list plus its records (association lists), and
    `reset_index(drop = True)` is implicit in the list-of-rows view;
  - a Python function that can raise returns `Except String _`; a try/except
    block is `tryE`; explicit guards stand for the KeyError a missing column
    raises;
  - file and network effects of one run are an `Env` record holding the
    outcome of each external operation, and prints are accumulated `Msg`s;
  - library routines called by the source (pandas `cut`, `quantile`,
    `get_dummies`, sklearn `train_test_split`, `StandardScaler`) are embedded
    from their documented default semantics, since their code is not part of
    this repository; the numpy PRNG stream and float `sqrt` are modelled
    (a seeded deterministic generator, resp. an ambient `sqrtFn` parameter).
-/

namespace HF

/-- Cell values of the tabular dataset: an exact rational stands for a pandas
number, a string for a categorical label, and nan for a missing value. -/
inductive Val where
  | num (q : ℚ)
  | str (s : String)
  | nan
deriving DecidableEq

/-- One record: an association list from column name to value. -/
abbrev Row := List (String × Val)

/-- A DataFrame: column names plus records. -/
structure DataFrame where
  cols : List String
  rows : List Row
deriving DecidableEq

/-- Reading the cell df[c] of one record; a column that is absent from the
record reads as nan (column presence is guarded separately where the source
would raise a KeyError). -/
def cell (r : Row) (c : String) : Val :=
  ((r.find? (fun p => p.1 == c)).map Prod.snd).getD Val.nan

/-- Numeric view of a cell; nan and categorical cells are skipped, as pandas
quantile skips missing values. -/
def toNumOpt : Val → Option ℚ
  | .num q => some q
  | _ => none

/-- Comparison of cells as pandas evaluates `<=` on a numeric column: any
comparison involving a missing value is False. -/
def vle : Val → Val → Bool
  | .num a, .num b => decide (a ≤ b)
  | _, _ => false

/-- Insertion step of sorting the column values. -/
def insertSorted (x : ℚ) : List ℚ → List ℚ
  | [] => [x]
  | y :: ys => if x ≤ y then x :: y :: ys else y :: insertSorted x ys

/-- Sorted copy of the column values. -/
def sortQ (l : List ℚ) : List ℚ := l.foldr insertSorted []

/-- Series.quantile with the default linear interpolation: on the sorted
values v_0 .. v_(m-1) the q-quantile is v_i + (h - i) * (v_(i+1) - v_i) where
h = q * (m - 1) and i = floor h; none on an empty series. -/
def quantile (xs : List ℚ) (q : ℚ) : Option ℚ :=
  match xs with
  | [] => none
  | _ :: _ =>
    let s := sortQ xs
    let m := s.length
    let h : ℚ := q * ((m : ℚ) - 1)
    let i : ℕ := (⌊h⌋).toNat
    let g : ℚ := h - (⌊h⌋ : ℚ)
    let a := s.getD i 0
    let b := s.getD (min (i + 1) (m - 1)) 0
    some (a + g * (b - a))

/-- The numeric values present in one column, in record order. -/
def colValsNum (df : DataFrame) (column : String) : List ℚ :=
  df.rows.filterMap (fun r => toNumOpt (cell r column))

/-- Q1 - 1.5 * IQR of handle_outliers; nan when the column holds no numeric
value (a quantile of an empty series). -/
def lower_bound (df : DataFrame) (column : String) : Val :=
  match quantile (colValsNum df column) (1/4),
        quantile (colValsNum df column) (3/4) with
  | some q1, some q3 => .num (q1 - 1.5 * (q3 - q1))
  | _, _ => .nan

/-- Q3 + 1.5 * IQR of handle_outliers. -/
def upper_bound (df : DataFrame) (column : String) : Val :=
  match quantile (colValsNum df column) (1/4),
        quantile (colValsNum df column) (3/4) with
  | some q1, some q3 => .num (q3 + 1.5 * (q3 - q1))
  | _, _ => .nan

/-- Row predicate of handle_outliers:
(df[column] >= lower_bound) & (df[column] <= upper_bound). -/
def outlierPred (df : DataFrame) (column : String) (r : Row) : Bool :=
  vle (lower_bound df column) (cell r column) &&
    vle (cell r column) (upper_bound df column)

/-- handle_outliers: keep the rows whose value in the column lies within the
inclusive IQR bounds computed on the incoming data; df[column] raises a
KeyError when the column is absent. -/
def handle_outliers (df : DataFrame) (column : String) : Except String DataFrame :=
  if column ∈ df.cols then
    .ok ⟨df.cols, df.rows.filter (outlierPred df column)⟩
  else
    .error "KeyError"

/-- pd.cut(df.age, bins = [0, 60, 75, 120], labels = [Adult, Senior, Elderly])
with the default right-closed bins: (0, 60] -> Adult, (60, 75] -> Senior,
(75, 120] -> Elderly; anything else, including 0 itself, values above 120 and
missing values, gets no bucket. -/
def cutAge : Val → Val
  | .num x =>
    if 0 < x ∧ x ≤ 60 then .str "Adult"
    else if 60 < x ∧ x ≤ 75 then .str "Senior"
    else if 75 < x ∧ x ≤ 120 then .str "Elderly"
    else .nan
  | _ => .nan

/-- The assignment df[age_category] = pd.cut(df[age], ...). -/
def addAgeCategory (df : DataFrame) : DataFrame :=
  ⟨df.cols ++ ["age_category"],
   df.rows.map (fun r => r ++ [("age_category", cutAge (cell r "age"))])⟩

/-- Indicator cell of pd.get_dummies for one label. -/
def oneHot (label : String) (v : Val) : Val :=
  if v = .str label then .num 1 else .num 0

/-- pd.get_dummies(df, columns = [age_category]) with the age name prepended:
the categorical column is replaced by one indicator column per category of
the age buckets (all three categories exist on the dtype, so all three
columns always appear). -/
def getDummiesAge (df : DataFrame) : DataFrame :=
  ⟨df.cols.filter (fun c => !(c == "age_category")) ++
     ["age_Adult", "age_Senior", "age_Elderly"],
   df.rows.map (fun r =>
     r.filter (fun p => !(p.1 == "age_category")) ++
       [("age_Adult", oneHot "Adult" (cell r "age_category")),
        ("age_Senior", oneHot "Senior" (cell r "age_category")),
        ("age_Elderly", oneHot "Elderly" (cell r "age_category"))])⟩

/-- df.drop(columns = cs): KeyError when a named column is absent. -/
def dropCols (df : DataFrame) (cs : List String) : Except String DataFrame :=
  if ∀ c ∈ cs, c ∈ df.cols then
    .ok ⟨df.cols.filter (fun c => !(cs.contains c)),
         df.rows.map (fun r => r.filter (fun p => !(cs.contains p.1)))⟩
  else
    .error "KeyError"

/-- Step 1 of preprocess_data: drop the time column when it is present. -/
def dropTimeStep (df : DataFrame) : Except String DataFrame :=
  if "time" ∈ df.cols then dropCols df ["time"] else .ok df

/-- preprocess_data: drop time, bucket and one-hot encode age, remove
serum_creatinine outliers, and separate the features X from the target y. -/
def preprocess_data (df : DataFrame) : Except String (DataFrame × List Val) :=
  match dropTimeStep df with
  | .error e => .error e
  | .ok df1 =>
    if "age" ∈ df1.cols then
      match handle_outliers (getDummiesAge (addAgeCategory df1)) "serum_creatinine" with
      | .error e => .error e
      | .ok df3 =>
        match dropCols df3 ["DEATH_EVENT"] with
        | .error e => .error e
        | .ok X =>
          if "DEATH_EVENT" ∈ df3.cols then
            .ok (X, df3.rows.map (fun r => cell r "DEATH_EVENT"))
          else .error "KeyError"
    else .error "KeyError"

/-- Execution environment of one run: presence of the local csv, the outcome
of reading it, the outcome of the remote fetch, and the outcome of writing
the local cache copy. -/
structure Env where
  localExists : Bool
  readLocal : Except String DataFrame
  fetchRemote : Except String DataFrame
  cacheWrite : Except String Unit

/-- Severity tag of one line printed to stdout. -/
inductive MsgLevel where
  | info
  | warning
  | error
deriving DecidableEq

/-- One line printed to stdout. -/
structure Msg where
  level : MsgLevel
  text : String
deriving DecidableEq

/-- Result of load_data: the dataset or None, plus what was printed. -/
structure LoadResult where
  result : Option DataFrame
  msgs : List Msg
deriving DecidableEq

/-- Python try/except: run the body; on an exception run the handler. -/
def tryE {α : Type} (body : Except String α) (handler : String → α) : α :=
  match body with
  | .ok a => a
  | .error e => handler e

/-- load_data: read the local csv when present, otherwise fetch the remote
copy and cache it; each attempt sits inside a try/except block converting any
error into a None return. The Except layer of the return type stands for an
exception escaping to the caller. -/
def load_data (env : Env) : Except String LoadResult :=
  if env.localExists then
    .ok (tryE
      (match env.readLocal with
       | .error e => .error e
       | .ok df =>
         .ok ⟨some df,
              [⟨.info, "[INFO] Dataset lokal ditemukan: heart_failure_raw.csv"⟩,
               ⟨.info, "[INFO] Ukuran awal"⟩]⟩)
      (fun e => ⟨none, [⟨.error, "[ERROR] Gagal membaca file: " ++ e⟩]⟩))
  else
    .ok (tryE
      (match env.fetchRemote with
       | .error e => .error e
       | .ok df =>
         match env.cacheWrite with
         | .error e => .error e
         | .ok _ =>
           .ok ⟨some df,
                [⟨.warning, "[WARNING] File heart_failure_raw.csv tidak ditemukan. Mencoba download dari UCI..."⟩,
                 ⟨.info, "[INFO] Berhasil download dan simpan ke heart_failure_raw.csv"⟩]⟩)
      (fun e =>
        ⟨none,
         [⟨.warning, "[WARNING] File heart_failure_raw.csv tidak ditemukan. Mencoba download dari UCI..."⟩,
          ⟨.error, "[ERROR] Gagal download: " ++ e⟩]⟩))

/-- Deterministic pseudo-random step standing for the numpy generator the
library splitter consumes (modelled: the exact Mersenne Twister stream is not
part of this repository). -/
def lcg (s : Nat) : Nat := (1103515245 * s + 12345) % 2147483648

/-- Fisher-Yates style selection driven by lcg, with the list length as fuel. -/
def shuffleAux : Nat → Nat → List Nat → List Nat
  | 0, _, _ => []
  | _ + 1, _, [] => []
  | fuel + 1, s, x :: xs =>
    let i := s % (x :: xs).length
    (x :: xs).getD i x :: shuffleAux fuel (lcg s) ((x :: xs).eraseIdx i)

/-- Deterministic pseudo-random permutation of an index list. -/
def shuffle (seed : Nat) (l : List Nat) : List Nat := shuffleAux l.length seed l

/-- Indices of the records of each distinct target class, grouped in order of
first appearance; the list length serves as structural fuel. -/
def groupClasses : Nat → List (Nat × ℚ) → List (List Nat)
  | 0, _ => []
  | _ + 1, [] => []
  | fuel + 1, p :: rest =>
    ((p :: rest).filter (fun q => decide (q.2 = p.2))).map Prod.fst ::
      groupClasses fuel (rest.filter (fun q => !decide (q.2 = p.2)))

/-- Per-class allocation and selection of the stratified shuffle split: with
S_k the running total of class sizes, class k receives
floor(S_k * nTest / n) - floor(S_(k-1) * nTest / n) test rows, drawn from the
front of its shuffled index list; its remaining rows are training rows. -/
def splitGroups (seed nTest n : Nat) : Nat → List (List Nat) → List Nat × List Nat
  | _, [] => ([], [])
  | acc, g :: gs =>
    let t := ((acc + g.length) * nTest) / n - (acc * nTest) / n
    let g2 := shuffle seed g
    let rest := splitGroups seed nTest n (acc + g.length) gs
    (g2.drop t ++ rest.1, g2.take t ++ rest.2)

/-- Stratified shuffle split index pair (train, test): ceil(testSize * n)
test rows in total, allocated to the classes of y in proportion. -/
def stratified_split_indices (seed : Nat) (testSize : ℚ) (y : List ℚ) :
    List Nat × List Nat :=
  let n := y.length
  let nTest := ⌈testSize * (n : ℚ)⌉₊
  splitGroups seed nTest n 0 (groupClasses n ((List.range n).zip y))

/-- train_test_split(X, y, test_size, random_state = seed, stratify = y),
returning (X_train, X_test, y_train, y_test). -/
def train_test_split (testSize : ℚ) (seed : Nat) (X : List (List ℚ)) (y : List ℚ) :
    List (List ℚ) × List (List ℚ) × List ℚ × List ℚ :=
  let idx := stratified_split_indices seed testSize y
  (idx.1.map (fun i => X.getD i []),
   idx.2.map (fun i => X.getD i []),
   idx.1.map (fun i => y.getD i 0),
   idx.2.map (fun i => y.getD i 0))

/-- Mean of one feature column over the fitted rows. -/
def meanL (xs : List ℚ) : ℚ := xs.sum / (xs.length : ℚ)

/-- Population variance (ddof 0) of one feature column, as StandardScaler fits
it. -/
def varL (xs : List ℚ) : ℚ :=
  (xs.map (fun x => (x - meanL xs) ^ 2)).sum / (xs.length : ℚ)

/-- Column j of a row-major feature matrix. -/
def colAt (rows : List (List ℚ)) (j : Nat) : List ℚ :=
  rows.map (fun r => r.getD j 0)

/-- StandardScaler replaces a zero scale by 1 so constant columns survive
scaling. -/
def adjScale (s : ℚ) : ℚ := if s = 0 then 1 else s

/-- Per-column means of the fitted scaler (scaler.mean_). -/
def fitMeans (rows : List (List ℚ)) (m : Nat) : List ℚ :=
  (List.range m).map (fun j => meanL (colAt rows j))

/-- Per-column scales of the fitted scaler (scaler.scale_): the square root of
the variance, taken by the ambient sqrtFn, with zeros replaced by 1. -/
def fitScales (sqrtFn : ℚ → ℚ) (rows : List (List ℚ)) (m : Nat) : List ℚ :=
  (List.range m).map (fun j => adjScale (sqrtFn (varL (colAt rows j))))

/-- Pointwise combination of three equally long lists. -/
def zipWith3 (f : ℚ → ℚ → ℚ → ℚ) : List ℚ → List ℚ → List ℚ → List ℚ
  | a :: la, b :: lb, c :: lc => f a b c :: zipWith3 f la lb lc
  | _, _, _ => []

/-- scaler.transform of one row: (x - mean) / scale per column. -/
def transformRow (means scales : List ℚ) (r : List ℚ) : List ℚ :=
  zipWith3 (fun mu s x => (x - mu) / s) means scales r

/-- scaler.inverse_transform of one row: x * scale + mean per column. -/
def invRow (means scales : List ℚ) (r : List ℚ) : List ℚ :=
  zipWith3 (fun mu s x => x * s + mu) means scales r

/-- Everything save_prepared_data computes: the split, the fitted scaler, the
scaled subsets, the reassembled persisted sets, the file names written, and
the prints. -/
structure SaveOut where
  Xtr : List (List ℚ)
  Xte : List (List ℚ)
  ytr : List ℚ
  yte : List ℚ
  means : List ℚ
  scales : List ℚ
  XtrScaled : List (List ℚ)
  XteScaled : List (List ℚ)
  train_set : List (List ℚ)
  test_set : List (List ℚ)
  files : List String
  msgs : List Msg

/-- save_prepared_data: the stratified 80/20 split with random_state 42,
standardization fitted on the training subset only and applied identically to
both subsets, reassembly with the target column, and the two csv writes. -/
def save_prepared_data (sqrtFn : ℚ → ℚ) (X : List (List ℚ)) (y : List ℚ) : SaveOut :=
  let p := train_test_split 0.2 42 X y
  let m := (X.headD []).length
  let means := fitMeans p.1 m
  let scales := fitScales sqrtFn p.1 m
  let XtrS := p.1.map (transformRow means scales)
  let XteS := p.2.1.map (transformRow means scales)
  let trainSet := (XtrS.zip p.2.2.1).map (fun q => q.1 ++ [q.2])
  let testSet := (XteS.zip p.2.2.2).map (fun q => q.1 ++ [q.2])
  ⟨p.1, p.2.1, p.2.2.1, p.2.2.2, means, scales, XtrS, XteS, trainSet, testSet,
   ["data_train.csv", "data_test.csv"],
   [⟨.info, "[INFO] Data berhasil disimpan: data_train.csv dan data_test.csv"⟩,
    ⟨.info, "[INFO] Ukuran Data Train"⟩,
    ⟨.info, "[INFO] Ukuran Data Test"⟩]⟩

/-- Numeric matrix view of the feature frame, as it reaches the scaler. -/
def toMatrix (df : DataFrame) : List (List ℚ) :=
  df.rows.map (fun r => df.cols.map (fun c =>
    match cell r c with
    | .num q => q
    | _ => 0))

/-- Numeric view of the target column. -/
def toVec (y : List Val) : List ℚ :=
  y.map (fun v => match v with | .num q => q | _ => 0)

/-- What one run printed and which output files it wrote. -/
structure MainOut where
  msgs : List Msg
  files : List String
deriving DecidableEq

/-- The direct-run block: load, and only when a dataset came back, preprocess
and persist; the two framing prints are always emitted. -/
def main_run (sqrtFn : ℚ → ℚ) (env : Env) : Except String MainOut :=
  match load_data env with
  | .error e => .error e
  | .ok r =>
    match r.result with
    | none =>
      .ok ⟨⟨.info, "--- MULAI PROSES OTOMATISASI ---"⟩ :: r.msgs ++
             [⟨.info, "--- SELESAI ---"⟩], []⟩
    | some df =>
      match preprocess_data df with
      | .error e => .error e
      | .ok Xy =>
        let s := save_prepared_data sqrtFn (toMatrix Xy.1) (toVec Xy.2)
        .ok ⟨⟨.info, "--- MULAI PROSES OTOMATISASI ---"⟩ :: r.msgs ++ s.msgs ++
               [⟨.info, "--- SELESAI ---"⟩], s.files⟩

/-! ## Helper lemmas -/

/-- handle_outliers keeps the columns and filters the rows by outlierPred. -/
theorem outlier_rows (df : DataFrame) (c : String) (out : DataFrame)
    (hok : handle_outliers df c = .ok out) :
    out.rows = df.rows.filter (outlierPred df c) ∧ out.cols = df.cols := by
  unfold handle_outliers at hok
  split_ifs at hok
  · injection hok with h
    subst h
    exact ⟨rfl, rfl⟩

/-- A comparison with a missing value is never true. -/
theorem vle_nan_right (v : Val) : vle v Val.nan = false := by
  cases v <;> rfl

/-- Behaviour of load_data when the local file is absent and the fetch
raises: the warning and the error are printed and None is returned. -/
theorem load_data_remote_error (env : Env) (e : String)
    (h1 : env.localExists = false) (h2 : env.fetchRemote = .error e) :
    load_data env =
      .ok ⟨none,
        [⟨.warning, "[WARNING] File heart_failure_raw.csv tidak ditemukan. Mencoba download dari UCI..."⟩,
         ⟨.error, "[ERROR] Gagal download: " ++ e⟩]⟩ := by
  simp [load_data, h1, h2, tryE]

/-- A true comparison forces both sides numeric and in order. -/
theorem vle_true (a b : Val) (h : vle a b = true) :
    ∃ x y, a = Val.num x ∧ b = Val.num y ∧ x ≤ y := by
  cases a <;> cases b <;> simp [vle] at h <;> exact ⟨_, _, rfl, rfl, h⟩

/-! ## C1: the claimed half-open bins [0,60), [60,75), [75,120] -/

/-- C1 is false on the code: pd.cut uses right-closed bins, so an age of
exactly 60 is bucketed Adult (not Senior), exactly 75 is bucketed Senior
(not Elderly), and exactly 0 receives no bucket at all (not Adult). -/
theorem C1_age_binning_counterexample :
    cutAge (.num 60) ≠ .str "Senior" ∧
    cutAge (.num 0) ≠ .str "Adult" ∧
    cutAge (.num 75) ≠ .str "Elderly" := by
  refine ⟨by decide, by decide, by decide⟩

/-- C1 amended: the age-bucketing step assigns categories via the left-open
right-closed ranges (0,60] -> Adult, (60,75] -> Senior, (75,120] -> Elderly;
an age of exactly 0 is left unbucketed (missing), exactly 60 is Adult, and
exactly 75 is Senior. -/
theorem C1_age_binning_amended (x : ℚ) :
    (cutAge (.num x) = .str "Adult" ↔ 0 < x ∧ x ≤ 60) ∧
    (cutAge (.num x) = .str "Senior" ↔ 60 < x ∧ x ≤ 75) ∧
    (cutAge (.num x) = .str "Elderly" ↔ 75 < x ∧ x ≤ 120) ∧
    cutAge (.num 0) = .nan ∧
    cutAge (.num 60) = .str "Adult" ∧
    cutAge (.num 75) = .str "Senior" := by
  by_cases h1 : 0 < x ∧ x ≤ 60 <;> by_cases h2 : 60 < x ∧ x ≤ 75 <;>
      by_cases h3 : 75 < x ∧ x ≤ 120 <;>
    first
      | (exfalso; linarith [h1.2, h2.1])
      | (exfalso; linarith [h1.2, h3.1])
      | (exfalso; linarith [h2.2, h3.1])
      | (exact ⟨by simp [cutAge, h1, h2, h3], by simp [cutAge, h1, h2, h3],
          by simp [cutAge, h1, h2, h3], by decide, by decide, by decide⟩)

/-! ## C2: boundary ages 60 and 61 -/

/-- C2: in the age bucketing, a record with age exactly 60 is assigned the
bucket Adult, and age 61 the bucket Senior. -/
theorem C2_age_boundary_buckets :
    cutAge (.num 60) = .str "Adult" ∧ cutAge (.num 61) = .str "Senior" := by
  refine ⟨by decide, by decide⟩

/-! ## C3: the Outlier Filter keeps exactly the rows inside the IQR bounds -/

/-- C3: every row retained by handle_outliers has a numeric value in the
filtered column lying within [Q1 - 1.5 IQR, Q3 + 1.5 IQR] inclusive, with
Q1, Q3 the quartiles of the pre-filter column; and a row of the input is
retained exactly when it passes the inclusive bound predicate. -/
theorem C3_outlier_filter_bounds (df : DataFrame) (c : String) (out : DataFrame)
    (hok : handle_outliers df c = .ok out) :
    (∀ r ∈ out.rows, ∃ q1 q3 v,
        quantile (colValsNum df c) (1/4) = some q1 ∧
        quantile (colValsNum df c) (3/4) = some q3 ∧
        cell r c = Val.num v ∧
        q1 - 1.5 * (q3 - q1) ≤ v ∧ v ≤ q3 + 1.5 * (q3 - q1)) ∧
    (∀ r, r ∈ out.rows ↔ r ∈ df.rows ∧ outlierPred df c r = true) := by
  obtain ⟨hrows, hcols⟩ := outlier_rows df c out hok
  constructor
  · intro r hr
    rw [hrows] at hr
    have hp := (List.mem_filter.mp hr).2
    unfold outlierPred at hp
    simp only [Bool.and_eq_true] at hp
    obtain ⟨h1, h2⟩ := hp
    cases hq1 : quantile (colValsNum df c) (1/4) with
    | none =>
      have hlb : lower_bound df c = Val.nan := by
        unfold lower_bound; rw [hq1]
      rw [hlb] at h1
      simp [vle] at h1
    | some q1 =>
      cases hq3 : quantile (colValsNum df c) (3/4) with
      | none =>
        have hlb : lower_bound df c = Val.nan := by
          unfold lower_bound; rw [hq1, hq3]
        rw [hlb] at h1
        simp [vle] at h1
      | some q3 =>
        have hlb : lower_bound df c = Val.num (q1 - 1.5 * (q3 - q1)) := by
          unfold lower_bound; rw [hq1, hq3]
        have hub : upper_bound df c = Val.num (q3 + 1.5 * (q3 - q1)) := by
          unfold upper_bound; rw [hq1, hq3]
        rw [hlb] at h1
        rw [hub] at h2
        obtain ⟨x, v, hx, hv, hxv⟩ := vle_true _ _ h1
        obtain ⟨v2, y2, hv2, hy2, hvy⟩ := vle_true _ _ h2
        injection hx with hx
        injection hy2 with hy2
        rw [hv] at hv2
        injection hv2 with hvv
        refine ⟨q1, q3, v, rfl, rfl, hv, ?_, ?_⟩
        · rw [hx]; exact hxv
        · rw [hy2, hvv]; exact hvy
  · intro r
    rw [hrows]
    exact List.mem_filter

/-- Witness for C3 on a concrete one-row dataset whose single value is
retained. -/
theorem C3_outlier_filter_bounds_witness :
    ∃ q1 q3 v,
      quantile (colValsNum ⟨["sc"], [[("sc", Val.num 2)]]⟩ "sc") (1/4) = some q1 ∧
      quantile (colValsNum ⟨["sc"], [[("sc", Val.num 2)]]⟩ "sc") (3/4) = some q3 ∧
      cell [("sc", Val.num 2)] "sc" = Val.num v ∧
      q1 - 1.5 * (q3 - q1) ≤ v ∧ v ≤ q3 + 1.5 * (q3 - q1) :=
  (C3_outlier_filter_bounds ⟨["sc"], [[("sc", Val.num 2)]]⟩ "sc"
      ⟨["sc"], [[("sc", Val.num 2)]]⟩
      (by
        have hc : colValsNum ⟨["sc"], [[("sc", Val.num 2)]]⟩ "sc" = [2] := rfl
        have h1 : quantile (colValsNum ⟨["sc"], [[("sc", Val.num 2)]]⟩ "sc") (1/4) = some 2 := by
          rw [hc]; norm_num [quantile, sortQ, insertSorted, Int.toNat]
        have h3 : quantile (colValsNum ⟨["sc"], [[("sc", Val.num 2)]]⟩ "sc") (3/4) = some 2 := by
          rw [hc]; norm_num [quantile, sortQ, insertSorted, Int.toNat]
        have hlb : lower_bound ⟨["sc"], [[("sc", Val.num 2)]]⟩ "sc" = Val.num 2 := by
          unfold lower_bound; rw [h1, h3]; norm_num
        have hub : upper_bound ⟨["sc"], [[("sc", Val.num 2)]]⟩ "sc" = Val.num 2 := by
          unfold upper_bound; rw [h1, h3]; norm_num
        have hp1 : outlierPred ⟨["sc"], [[("sc", Val.num 2)]]⟩ "sc" [("sc", Val.num 2)] = true := by
          unfold outlierPred; rw [hlb, hub]; decide
        unfold handle_outliers
        rw [if_pos (by simp)]
        simp [List.filter_cons, hp1])).1
    [("sc", Val.num 2)] (by simp)

/-! ## C9: rows with a missing value in the filtered column are removed -/

/-- C9: no row retained by handle_outliers has a missing value in the
filtered column, since a missing value satisfies neither bound comparison. -/
theorem C9_nan_rows_removed (df : DataFrame) (c : String) (out : DataFrame)
    (hok : handle_outliers df c = .ok out) (r : Row) (hr : r ∈ out.rows) :
    cell r c ≠ Val.nan := by
  have hrows := (outlier_rows df c out hok).1
  rw [hrows] at hr
  have hp := (List.mem_filter.mp hr).2
  unfold outlierPred at hp
  simp only [Bool.and_eq_true] at hp
  intro hnan
  rw [hnan, vle_nan_right] at hp
  exact Bool.false_ne_true hp.1

/-- Witness for C9 on a concrete dataset with one numeric and one missing
value: the retained row is not missing. -/
theorem C9_nan_rows_removed_witness :
    cell [("c", Val.num 1)] "c" ≠ Val.nan :=
  C9_nan_rows_removed ⟨["c"], [[("c", Val.num 1)], [("c", Val.nan)]]⟩ "c"
    ⟨["c"], [[("c", Val.num 1)]]⟩
    (by
      have hc : colValsNum ⟨["c"], [[("c", Val.num 1)], [("c", Val.nan)]]⟩ "c" = [1] := rfl
      have h1 : quantile (colValsNum ⟨["c"], [[("c", Val.num 1)], [("c", Val.nan)]]⟩ "c") (1/4) = some 1 := by
        rw [hc]; norm_num [quantile, sortQ, insertSorted, Int.toNat]
      have h3 : quantile (colValsNum ⟨["c"], [[("c", Val.num 1)], [("c", Val.nan)]]⟩ "c") (3/4) = some 1 := by
        rw [hc]; norm_num [quantile, sortQ, insertSorted, Int.toNat]
      have hlb : lower_bound ⟨["c"], [[("c", Val.num 1)], [("c", Val.nan)]]⟩ "c" = Val.num 1 := by
        unfold lower_bound; rw [h1, h3]; norm_num
      have hub : upper_bound ⟨["c"], [[("c", Val.num 1)], [("c", Val.nan)]]⟩ "c" = Val.num 1 := by
        unfold upper_bound; rw [h1, h3]; norm_num
      have hp1 : outlierPred ⟨["c"], [[("c", Val.num 1)], [("c", Val.nan)]]⟩ "c" [("c", Val.num 1)] = true := by
        unfold outlierPred; rw [hlb, hub]; decide
      have hp2 : outlierPred ⟨["c"], [[("c", Val.num 1)], [("c", Val.nan)]]⟩ "c" [("c", Val.nan)] = false := by
        unfold outlierPred; rw [hlb, hub]; decide
      unfold handle_outliers
      rw [if_pos (by simp)]
      simp [List.filter_cons, hp1, hp2])
    [("c", Val.num 1)] (by simp)

/-! ## C4: the Data Loader never raises -/

/-- C4: in every environment load_data returns (no exception escapes), and a
local read error, resp. a remote fetch error, is converted into a None
result. -/
theorem C4_loader_never_raises (env : Env) :
    (∃ r, load_data env = .ok r) ∧
    (∀ e, env.localExists = true → env.readLocal = .error e →
      load_data env =
        .ok ⟨none, [⟨.error, "[ERROR] Gagal membaca file: " ++ e⟩]⟩) ∧
    (∀ e, env.localExists = false → env.fetchRemote = .error e →
      load_data env =
        .ok ⟨none,
          [⟨.warning, "[WARNING] File heart_failure_raw.csv tidak ditemukan. Mencoba download dari UCI..."⟩,
           ⟨.error, "[ERROR] Gagal download: " ++ e⟩]⟩) := by
  refine ⟨?_, ?_, ?_⟩
  · unfold load_data
    split_ifs <;> exact ⟨_, rfl⟩
  · intro e h1 h2
    simp [load_data, h1, h2, tryE]
  · intro e h1 h2
    exact load_data_remote_error env e h1 h2

/-- Witness for C4 at a concrete failing environment. -/
theorem C4_loader_never_raises_witness :
    load_data ⟨true, .error "boom", .error "x", .ok ()⟩ =
      .ok ⟨none, [⟨.error, "[ERROR] Gagal membaca file: " ++ "boom"⟩]⟩ :=
  (C4_loader_never_raises ⟨true, .error "boom", .error "x", .ok ()⟩).2.1
    "boom" rfl rfl

/-! ## C10: a cache-write failure discards a successful fetch -/

/-- C10: when the local file is absent, the fetch succeeds but writing the
cache copy fails, load_data returns None and the fetched dataset is
discarded. -/
theorem C10_cache_write_failure_masks_fetch (env : Env) (df : DataFrame)
    (e : String) (h1 : env.localExists = false) (h2 : env.fetchRemote = .ok df)
    (h3 : env.cacheWrite = .error e) :
    load_data env =
      .ok ⟨none,
        [⟨.warning, "[WARNING] File heart_failure_raw.csv tidak ditemukan. Mencoba download dari UCI..."⟩,
         ⟨.error, "[ERROR] Gagal download: " ++ e⟩]⟩ := by
  simp [load_data, h1, h2, h3, tryE]

/-- Witness for C10 at a concrete environment with a failing cache write. -/
theorem C10_cache_write_failure_masks_fetch_witness :
    load_data ⟨false, .error "r", .ok ⟨[], []⟩, .error "disk full"⟩ =
      .ok ⟨none,
        [⟨.warning, "[WARNING] File heart_failure_raw.csv tidak ditemukan. Mencoba download dari UCI..."⟩,
         ⟨.error, "[ERROR] Gagal download: " ++ "disk full"⟩]⟩ :=
  C10_cache_write_failure_masks_fetch ⟨false, .error "r", .ok ⟨[], []⟩, .error "disk full"⟩
    ⟨[], []⟩ "disk full" rfl rfl rfl

/-! ## C6: a null dataset short-circuits the pipeline -/

/-- C6: when the local file is absent and the remote fetch fails, the run
terminates normally, prints exactly two warning/error lines, and writes no
output files. -/
theorem C6_loader_failure_short_circuits (sqrtFn : ℚ → ℚ) (env : Env)
    (e : String) (h1 : env.localExists = false) (h2 : env.fetchRemote = .error e) :
    ∃ out, main_run sqrtFn env = .ok out ∧ out.files = [] ∧
      out.msgs.countP (fun m => decide (m.level ≠ MsgLevel.info)) = 2 := by
  have hload := load_data_remote_error env e h1 h2
  refine ⟨⟨⟨.info, "--- MULAI PROSES OTOMATISASI ---"⟩ ::
      ([⟨.warning, "[WARNING] File heart_failure_raw.csv tidak ditemukan. Mencoba download dari UCI..."⟩,
        ⟨.error, "[ERROR] Gagal download: " ++ e⟩] : List Msg) ++
      [⟨.info, "--- SELESAI ---"⟩], []⟩, ?_, rfl, ?_⟩
  · unfold main_run
    rw [hload]
  · simp [List.countP_cons, List.countP_nil]

/-- Witness for C6 at a concrete doubly-failing environment. -/
theorem C6_loader_failure_short_circuits_witness :
    ∃ out, main_run id ⟨false, .error "a", .error "net down", .ok ()⟩ = .ok out ∧
      out.files = [] ∧
      out.msgs.countP (fun m => decide (m.level ≠ MsgLevel.info)) = 2 :=
  C6_loader_failure_short_circuits id ⟨false, .error "a", .error "net down", .ok ()⟩
    "net down" rfl rfl

/-! ## C7: the time column never survives preprocessing -/

/-- dropTimeStep never returns a frame with a time column. -/
theorem dropTimeStep_no_time (df df1 : DataFrame) (h : dropTimeStep df = .ok df1) :
    "time" ∉ df1.cols := by
  unfold dropTimeStep at h
  split_ifs at h with ht
  · unfold dropCols at h
    split_ifs at h with hall
    · injection h with h
      subst h
      intro hmem
      have hpred := (List.mem_filter.mp hmem).2
      exact absurd hpred (by decide)
  · injection h with h
    subst h
    exact ht

/-- Adding the age bucket and one-hot encoding it introduces no time column. -/
theorem dummies_cols_no_time (df1 : DataFrame) (h : "time" ∉ df1.cols) :
    "time" ∉ (getDummiesAge (addAgeCategory df1)).cols := by
  intro hmem
  simp only [getDummiesAge, addAgeCategory] at hmem
  rcases List.mem_append.mp hmem with hL | hR
  · have hIn := (List.mem_filter.mp hL).1
    rcases List.mem_append.mp hIn with hA | hB
    · exact h hA
    · simp at hB
  · simp at hR

/-- dropCols only removes columns. -/
theorem dropCols_cols_subset (df df2 : DataFrame) (cs : List String)
    (h : dropCols df cs = .ok df2) : ∀ c, c ∈ df2.cols → c ∈ df.cols := by
  unfold dropCols at h
  split_ifs at h
  · injection h with h
    subst h
    intro c hc
    exact (List.mem_filter.mp hc).1

/-- The feature frame produced by preprocess_data has no time column. -/
theorem preprocess_no_time (df X : DataFrame) (y : List Val)
    (h : preprocess_data df = .ok (X, y)) : "time" ∉ X.cols := by
  unfold preprocess_data at h
  split at h
  next e heq => exact absurd h (by simp)
  next df1 heq =>
    have hdf1 : "time" ∉ df1.cols := dropTimeStep_no_time df df1 heq
    split_ifs at h with hage
    split at h
    next e heq2 => exact absurd h (by simp)
    next df3 heq2 =>
      have hcols3 : df3.cols = (getDummiesAge (addAgeCategory df1)).cols :=
        (outlier_rows _ _ _ heq2).2
      have hdf3 : "time" ∉ df3.cols := by
        rw [hcols3]; exact dummies_cols_no_time df1 hdf1
      split at h
      next e heq3 => exact absurd h (by simp)
      next X2 heq3 =>
        split_ifs at h with hde
        injection h with h
        injection h with hX hy
        subst hX
        intro hmem
        exact hdf3 (dropCols_cols_subset df3 X2 ["DEATH_EVENT"] heq3 "time" hmem)

/-- C7: any feature frame X returned by preprocess_data is free of the time
column, and on an input without a time column the drop step succeeds without
touching the frame. -/
theorem C7_time_column_dropped :
    (∀ df X y, preprocess_data df = .ok (X, y) → "time" ∉ X.cols) ∧
    (∀ df, "time" ∉ df.cols → dropTimeStep df = .ok df) := by
  constructor
  · exact fun df X y h => preprocess_no_time df X y h
  · intro df h
    unfold dropTimeStep
    rw [if_neg h]

/-- Witness for C7: a concrete record with a time column loses it. -/
theorem C7_time_column_dropped_witness :
    "time" ∉ (DataFrame.mk
      ["age", "serum_creatinine", "age_Adult", "age_Senior", "age_Elderly"]
      [[("age", Val.num 50), ("serum_creatinine", Val.num 1),
        ("age_Adult", Val.num 1), ("age_Senior", Val.num 0),
        ("age_Elderly", Val.num 0)]]).cols :=
  C7_time_column_dropped.1
    ⟨["age", "serum_creatinine", "time", "DEATH_EVENT"],
     [[("age", Val.num 50), ("serum_creatinine", Val.num 1),
       ("time", Val.num 4), ("DEATH_EVENT", Val.num 0)]]⟩ _ _
    (by
      have hstep : dropTimeStep
          ⟨["age", "serum_creatinine", "time", "DEATH_EVENT"],
           [[("age", Val.num 50), ("serum_creatinine", Val.num 1),
             ("time", Val.num 4), ("DEATH_EVENT", Val.num 0)]]⟩ =
          .ok ⟨["age", "serum_creatinine", "DEATH_EVENT"],
            [[("age", Val.num 50), ("serum_creatinine", Val.num 1),
              ("DEATH_EVENT", Val.num 0)]]⟩ := rfl
      have hdum : getDummiesAge (addAgeCategory
          ⟨["age", "serum_creatinine", "DEATH_EVENT"],
           [[("age", Val.num 50), ("serum_creatinine", Val.num 1),
             ("DEATH_EVENT", Val.num 0)]]⟩) =
          ⟨["age", "serum_creatinine", "DEATH_EVENT",
            "age_Adult", "age_Senior", "age_Elderly"],
           [[("age", Val.num 50), ("serum_creatinine", Val.num 1),
             ("DEATH_EVENT", Val.num 0), ("age_Adult", Val.num 1),
             ("age_Senior", Val.num 0), ("age_Elderly", Val.num 0)]]⟩ := rfl
      have hc : colValsNum
          ⟨["age", "serum_creatinine", "DEATH_EVENT",
            "age_Adult", "age_Senior", "age_Elderly"],
           [[("age", Val.num 50), ("serum_creatinine", Val.num 1),
             ("DEATH_EVENT", Val.num 0), ("age_Adult", Val.num 1),
             ("age_Senior", Val.num 0), ("age_Elderly", Val.num 0)]]⟩
          "serum_creatinine" = [1] := rfl
      have h1 : quantile (colValsNum
          ⟨["age", "serum_creatinine", "DEATH_EVENT",
            "age_Adult", "age_Senior", "age_Elderly"],
           [[("age", Val.num 50), ("serum_creatinine", Val.num 1),
             ("DEATH_EVENT", Val.num 0), ("age_Adult", Val.num 1),
             ("age_Senior", Val.num 0), ("age_Elderly", Val.num 0)]]⟩
          "serum_creatinine") (1/4) = some 1 := by
        rw [hc]; norm_num [quantile, sortQ, insertSorted, Int.toNat]
      have h3 : quantile (colValsNum
          ⟨["age", "serum_creatinine", "DEATH_EVENT",
            "age_Adult", "age_Senior", "age_Elderly"],
           [[("age", Val.num 50), ("serum_creatinine", Val.num 1),
             ("DEATH_EVENT", Val.num 0), ("age_Adult", Val.num 1),
             ("age_Senior", Val.num 0), ("age_Elderly", Val.num 0)]]⟩
          "serum_creatinine") (3/4) = some 1 := by
        rw [hc]; norm_num [quantile, sortQ, insertSorted, Int.toNat]
      have hlb : lower_bound
          ⟨["age", "serum_creatinine", "DEATH_EVENT",
            "age_Adult", "age_Senior", "age_Elderly"],
           [[("age", Val.num 50), ("serum_creatinine", Val.num 1),
             ("DEATH_EVENT", Val.num 0), ("age_Adult", Val.num 1),
             ("age_Senior", Val.num 0), ("age_Elderly", Val.num 0)]]⟩
          "serum_creatinine" = Val.num 1 := by
        unfold lower_bound; rw [h1, h3]; norm_num
      have hub : upper_bound
          ⟨["age", "serum_creatinine", "DEATH_EVENT",
            "age_Adult", "age_Senior", "age_Elderly"],
           [[("age", Val.num 50), ("serum_creatinine", Val.num 1),
             ("DEATH_EVENT", Val.num 0), ("age_Adult", Val.num 1),
             ("age_Senior", Val.num 0), ("age_Elderly", Val.num 0)]]⟩
          "serum_creatinine" = Val.num 1 := by
        unfold upper_bound; rw [h1, h3]; norm_num
      have hp1 : outlierPred
          ⟨["age", "serum_creatinine", "DEATH_EVENT",
            "age_Adult", "age_Senior", "age_Elderly"],
           [[("age", Val.num 50), ("serum_creatinine", Val.num 1),
             ("DEATH_EVENT", Val.num 0), ("age_Adult", Val.num 1),
             ("age_Senior", Val.num 0), ("age_Elderly", Val.num 0)]]⟩
          "serum_creatinine"
          [("age", Val.num 50), ("serum_creatinine", Val.num 1),
           ("DEATH_EVENT", Val.num 0), ("age_Adult", Val.num 1),
           ("age_Senior", Val.num 0), ("age_Elderly", Val.num 0)] = true := by
        unfold outlierPred; rw [hlb, hub]; decide
      have hout : handle_outliers
          ⟨["age", "serum_creatinine", "DEATH_EVENT",
            "age_Adult", "age_Senior", "age_Elderly"],
           [[("age", Val.num 50), ("serum_creatinine", Val.num 1),
             ("DEATH_EVENT", Val.num 0), ("age_Adult", Val.num 1),
             ("age_Senior", Val.num 0), ("age_Elderly", Val.num 0)]]⟩
          "serum_creatinine" =
          .ok ⟨["age", "serum_creatinine", "DEATH_EVENT",
            "age_Adult", "age_Senior", "age_Elderly"],
           [[("age", Val.num 50), ("serum_creatinine", Val.num 1),
             ("DEATH_EVENT", Val.num 0), ("age_Adult", Val.num 1),
             ("age_Senior", Val.num 0), ("age_Elderly", Val.num 0)]]⟩ := by
        unfold handle_outliers
        rw [if_pos (by simp)]
        simp [List.filter_cons, hp1]
      have hdrop : dropCols
          ⟨["age", "serum_creatinine", "DEATH_EVENT",
            "age_Adult", "age_Senior", "age_Elderly"],
           [[("age", Val.num 50), ("serum_creatinine", Val.num 1),
             ("DEATH_EVENT", Val.num 0), ("age_Adult", Val.num 1),
             ("age_Senior", Val.num 0), ("age_Elderly", Val.num 0)]]⟩
          ["DEATH_EVENT"] =
          .ok ⟨["age", "serum_creatinine", "age_Adult", "age_Senior", "age_Elderly"],
           [[("age", Val.num 50), ("serum_creatinine", Val.num 1),
             ("age_Adult", Val.num 1), ("age_Senior", Val.num 0),
             ("age_Elderly", Val.num 0)]]⟩ := rfl
      simp only [preprocess_data, hstep, hdum, hout, hdrop]
      simp
      rfl)

/-! ## C8: scaling is fitted on the training subset and round-trips -/

/-- The adjusted scale is never zero. -/
theorem adjScale_ne_zero (s : ℚ) : adjScale s ≠ 0 := by
  unfold adjScale
  split_ifs with h
  · exact one_ne_zero
  · exact h

/-- Transforming then inverse-transforming one row is the identity whenever no
scale entry is zero and the row is as long as the parameter lists. -/
theorem transform_roundTrip (means : List ℚ) :
    ∀ scales r : List ℚ, scales.length = means.length →
      r.length = means.length → (∀ s ∈ scales, s ≠ 0) →
      invRow means scales (transformRow means scales r) = r := by
  induction means with
  | nil =>
    intro scales r hs hr _
    have hr0 : r = [] := List.eq_nil_of_length_eq_zero hr
    subst hr0
    rfl
  | cons mu mus ih =>
    intro scales r hs hr hnz
    cases scales with
    | nil => simp at hs
    | cons s ss =>
      cases r with
      | nil => simp at hr
      | cons x xs =>
        have hsnz : s ≠ 0 := hnz s (List.mem_cons_self s ss)
        simp only [transformRow, invRow, zipWith3] at ih ⊢
        congr 1
        · rw [div_mul_cancel₀ _ hsnz]
          ring
        · exact ih ss xs (by simpa using hs) (by simpa using hr)
            (fun t ht => hnz t (List.mem_cons_of_mem s ht))

/-- C8: save_prepared_data fits the scaler means and scales on the training
subset only, applies the identical transform to both subsets, and applying
the inverse transform to a scaled training row recovers the original row
exactly. -/
theorem C8_scaler_fit_on_train_roundtrip (sqrtFn : ℚ → ℚ) (X : List (List ℚ))
    (y : List ℚ) (o : SaveOut) (ho : save_prepared_data sqrtFn X y = o) :
    o.means = fitMeans o.Xtr (X.headD []).length ∧
    o.scales = fitScales sqrtFn o.Xtr (X.headD []).length ∧
    o.XtrScaled = o.Xtr.map (transformRow o.means o.scales) ∧
    o.XteScaled = o.Xte.map (transformRow o.means o.scales) ∧
    ∀ r ∈ o.Xtr, r.length = o.means.length →
      invRow o.means o.scales (transformRow o.means o.scales r) = r := by
  subst ho
  refine ⟨rfl, rfl, rfl, rfl, ?_⟩
  intro r hr hlen
  apply transform_roundTrip
  · show (fitScales sqrtFn _ _).length = (fitMeans _ _).length
    simp [fitMeans, fitScales]
  · exact hlen
  · intro s hs
    have hs2 : s ∈ fitScales sqrtFn (train_test_split 0.2 42 X y).1 (X.headD []).length := hs
    unfold fitScales at hs2
    obtain ⟨j, hj, hadj⟩ := List.mem_map.mp hs2
    rw [← hadj]
    exact adjScale_ne_zero _

/-- Closed form of the test-row count: the ceiling of one fifth of n. -/
theorem natCeil_fifth (n : ℕ) : ⌈(0.2 : ℚ) * (n : ℚ)⌉₊ = (n + 4) / 5 := by
  have h02 : (0.2 : ℚ) * (n : ℚ) = (n : ℚ) / 5 := by norm_num; ring
  rw [h02]
  apply le_antisymm
  · rw [Nat.ceil_le, div_le_iff₀ (by norm_num)]
    have h1 : n ≤ 5 * ((n + 4) / 5) := by omega
    calc (n : ℚ) ≤ ((5 * ((n + 4) / 5) : ℕ) : ℚ) := by exact_mod_cast h1
    _ = ((n + 4) / 5 : ℕ) * 5 := by push_cast; ring
  · rcases Nat.eq_zero_or_pos ((n + 4) / 5) with hk | hk
    · simp [hk]
    · have h2 : 5 * ((n + 4) / 5) ≤ n + 4 := by omega
      have h3 : (n + 4) / 5 - 1 < ⌈(n : ℚ) / 5⌉₊ := by
        rw [Nat.lt_ceil]
        rw [lt_div_iff₀ (by norm_num : (0:ℚ) < 5)]
        have h4 : ((n + 4) / 5 - 1) * 5 < n := by omega
        exact_mod_cast h4
      omega

/-- Witness for C8: on a concrete constant 5-row matrix the first training
row round-trips through the fitted scaler. -/
theorem C8_scaler_fit_on_train_roundtrip_witness :
    invRow (save_prepared_data id [[2],[2],[2],[2],[2]] [0,0,0,0,0]).means
        (save_prepared_data id [[2],[2],[2],[2],[2]] [0,0,0,0,0]).scales
        (transformRow (save_prepared_data id [[2],[2],[2],[2],[2]] [0,0,0,0,0]).means
          (save_prepared_data id [[2],[2],[2],[2],[2]] [0,0,0,0,0]).scales
          ((save_prepared_data id [[2],[2],[2],[2],[2]] [0,0,0,0,0]).Xtr.getD 0 [])) =
      (save_prepared_data id [[2],[2],[2],[2],[2]] [0,0,0,0,0]).Xtr.getD 0 [] := by
  have hXtr : (save_prepared_data id [[2],[2],[2],[2],[2]] [0,0,0,0,0]).Xtr =
      [[2],[2],[2],[2]] := by
    simp only [save_prepared_data, train_test_split, stratified_split_indices]
    rw [natCeil_fifth]
    rfl
  refine (C8_scaler_fit_on_train_roundtrip id [[2],[2],[2],[2],[2]] [0,0,0,0,0]
      _ rfl).2.2.2.2
    ((save_prepared_data id [[2],[2],[2],[2],[2]] [0,0,0,0,0]).Xtr.getD 0 []) ?_ ?_
  · rw [hXtr]
    decide
  · rw [hXtr]
    simp [save_prepared_data, fitMeans]

/-! ## C5: the 80/20 stratified split with seed 42 -/

/-- A Boolean predicate partitions a list into its filter and co-filter. -/
theorem length_filter_add_length_filter_not {α : Type} (p : α → Bool) (l : List α) :
    (l.filter p).length + (l.filter (fun a => !(p a))).length = l.length := by
  induction l with
  | nil => rfl
  | cons a l ih =>
    cases hpa : p a <;> simp [List.filter_cons, hpa] <;> omega

/-- The class groups together contain exactly the records that were grouped. -/
theorem groupClasses_length_sum :
    ∀ (fuel : Nat) (l : List (Nat × ℚ)), l.length ≤ fuel →
      ((groupClasses fuel l).map List.length).sum = l.length := by
  intro fuel
  induction fuel with
  | zero =>
    intro l hl
    have h0 : l = [] := List.eq_nil_of_length_eq_zero (Nat.le_zero.mp hl)
    subst h0
    rfl
  | succ m ih =>
    intro l hl
    cases l with
    | nil => rfl
    | cons p rest =>
      have hl2 : rest.length ≤ m := by
        simp only [List.length_cons] at hl
        omega
      simp only [groupClasses, List.map_cons, List.sum_cons, List.length_map]
      rw [ih (rest.filter (fun q => !decide (q.2 = p.2)))
        (le_trans (List.length_filter_le _ _) hl2)]
      have hpart := length_filter_add_length_filter_not
        (fun q => decide (q.2 = p.2)) rest
      simp only [List.filter_cons, decide_eq_true_eq] at hpart ⊢
      simp only [if_true, List.length_cons]
      omega

/-- Nat division grows by at most the increment of the dividend share. -/
theorem div_bound (acc c T n : Nat) (hT : T ≤ n) :
    (acc + c) * T / n ≤ acc * T / n + c := by
  rcases Nat.eq_zero_or_pos n with hn | hn
  · subst hn
    simp [Nat.div_zero]
  · have h2 : c * T ≤ c * n := Nat.mul_le_mul_left c hT
    have h3 : (acc + c) * T = acc * T + c * T := by ring
    have h1 : (acc + c) * T ≤ acc * T + c * n := by omega
    calc (acc + c) * T / n ≤ (acc * T + c * n) / n := Nat.div_le_div_right h1
    _ = acc * T / n + c := Nat.add_mul_div_right _ _ hn

/-- shuffleAux preserves length when given enough fuel. -/
theorem shuffleAux_length :
    ∀ (fuel s : Nat) (l : List Nat), l.length ≤ fuel →
      (shuffleAux fuel s l).length = l.length := by
  intro fuel
  induction fuel with
  | zero =>
    intro s l hl
    have h0 : l = [] := List.eq_nil_of_length_eq_zero (Nat.le_zero.mp hl)
    subst h0
    rfl
  | succ m ih =>
    intro s l hl
    cases l with
    | nil => rfl
    | cons x xs =>
      have hi : s % (xs.length + 1) < xs.length + 1 := Nat.mod_lt _ (Nat.succ_pos _)
      have herase : ((x :: xs).eraseIdx (s % (xs.length + 1))).length = xs.length := by
        rw [List.length_eraseIdx_of_lt (by rw [List.length_cons]; exact hi)]
        simp
      have hl2 : xs.length ≤ m := by
        simp only [List.length_cons] at hl
        omega
      simp only [shuffleAux, List.length_cons]
      rw [ih (lcg s) _ (by rw [herase]; exact hl2), herase]

/-- shuffle preserves length. -/
theorem shuffle_length (seed : Nat) (l : List Nat) :
    (shuffle seed l).length = l.length :=
  shuffleAux_length l.length seed l le_rfl

/-- The test side of splitGroups realises the telescoping allocation. -/
theorem splitGroups_test_length (seed T n : Nat) (hT : T ≤ n) :
    ∀ (gs : List (List Nat)) (acc : Nat),
      (splitGroups seed T n acc gs).2.length + acc * T / n =
        (acc + (gs.map List.length).sum) * T / n := by
  intro gs
  induction gs with
  | nil =>
    intro acc
    simp [splitGroups]
  | cons g rest ih =>
    intro acc
    have hdb := div_bound acc g.length T n hT
    have hmono : acc * T / n ≤ (acc + g.length) * T / n :=
      Nat.div_le_div_right (Nat.mul_le_mul_right T (Nat.le_add_right acc g.length))
    have htake : ((shuffle seed g).take
        ((acc + g.length) * T / n - acc * T / n)).length
        = (acc + g.length) * T / n - acc * T / n := by
      rw [List.length_take, shuffle_length]
      omega
    have ihacc := ih (acc + g.length)
    simp only [splitGroups, List.length_append, List.map_cons, List.sum_cons]
    rw [htake, ← Nat.add_assoc]
    omega

/-- The train side of splitGroups receives everything the test side left. -/
theorem splitGroups_train_length (seed T n : Nat) (hT : T ≤ n) :
    ∀ (gs : List (List Nat)) (acc : Nat),
      (splitGroups seed T n acc gs).1.length +
          (acc + (gs.map List.length).sum) * T / n =
        (gs.map List.length).sum + acc * T / n := by
  intro gs
  induction gs with
  | nil =>
    intro acc
    simp [splitGroups]
  | cons g rest ih =>
    intro acc
    have hdb := div_bound acc g.length T n hT
    have hmono : acc * T / n ≤ (acc + g.length) * T / n :=
      Nat.div_le_div_right (Nat.mul_le_mul_right T (Nat.le_add_right acc g.length))
    have hdrop : ((shuffle seed g).drop
        ((acc + g.length) * T / n - acc * T / n)).length
        = g.length - ((acc + g.length) * T / n - acc * T / n) := by
      rw [List.length_drop, shuffle_length]
    have ihacc := ih (acc + g.length)
    simp only [splitGroups, List.length_append, List.map_cons, List.sum_cons]
    rw [hdrop, ← Nat.add_assoc]
    omega

/-- Sizes of the stratified split: ceil(0.2 n) test indices and the remaining
floor(0.8 n) train indices. -/
theorem stratified_split_lengths (seed : Nat) (y : List ℚ) :
    (stratified_split_indices seed 0.2 y).2.length =
      ⌈(0.2 : ℚ) * (y.length : ℚ)⌉₊ ∧
    (stratified_split_indices seed 0.2 y).1.length =
      y.length - ⌈(0.2 : ℚ) * (y.length : ℚ)⌉₊ := by
  have hTn : ⌈(0.2 : ℚ) * (y.length : ℚ)⌉₊ ≤ y.length := by
    rw [natCeil_fifth]
    omega
  have hzlen : ((List.range y.length).zip y).length = y.length := by
    rw [List.length_zip, List.length_range, Nat.min_self]
  have hsum : ((groupClasses y.length ((List.range y.length).zip y)).map
      List.length).sum = y.length := by
    rw [groupClasses_length_sum y.length _ (le_of_eq hzlen), hzlen]
  have hte := splitGroups_test_length seed _ y.length hTn
    (groupClasses y.length ((List.range y.length).zip y)) 0
  have htr := splitGroups_train_length seed _ y.length hTn
    (groupClasses y.length ((List.range y.length).zip y)) 0
  rw [hsum] at hte htr
  simp only [Nat.zero_mul, Nat.zero_div, Nat.add_zero, Nat.zero_add] at hte htr
  have hnTn : y.length * ⌈(0.2 : ℚ) * (y.length : ℚ)⌉₊ / y.length =
      ⌈(0.2 : ℚ) * (y.length : ℚ)⌉₊ := by
    rcases Nat.eq_zero_or_pos y.length with h0 | hpos
    · have hT0 : ⌈(0.2 : ℚ) * (y.length : ℚ)⌉₊ = 0 := by
        rw [natCeil_fifth, h0]
      rw [hT0]
      simp
    · exact Nat.mul_div_cancel_left _ hpos
  constructor
  · simp only [stratified_split_indices]
    rw [hte, hnTn]
  · simp only [stratified_split_indices]
    rw [hnTn] at htr
    omega

/-- C5: the Persister splits with test_size 0.2 and random_state 42
stratified on y; the test subset holds ceil(0.2 n) rows, the train subset
the remaining floor(0.8 n) rows, the target vectors match the feature
subsets, the split save_prepared_data consumes is exactly this one, and the
split is a pure function of its input, so two runs coincide. -/
theorem C5_split_sizes_deterministic (sqrtFn : ℚ → ℚ) (X : List (List ℚ))
    (y : List ℚ) :
    (train_test_split 0.2 42 X y).2.1.length =
      ⌈(0.2 : ℚ) * (y.length : ℚ)⌉₊ ∧
    (train_test_split 0.2 42 X y).1.length =
      y.length - ⌈(0.2 : ℚ) * (y.length : ℚ)⌉₊ ∧
    (train_test_split 0.2 42 X y).2.2.1.length =
      (train_test_split 0.2 42 X y).1.length ∧
    (train_test_split 0.2 42 X y).2.2.2.length =
      (train_test_split 0.2 42 X y).2.1.length ∧
    (save_prepared_data sqrtFn X y).Xtr = (train_test_split 0.2 42 X y).1 ∧
    train_test_split 0.2 42 X y = train_test_split 0.2 42 X y := by
  obtain ⟨hte, htr⟩ := stratified_split_lengths 42 y
  refine ⟨?_, ?_, ?_, ?_, rfl, rfl⟩
  · simpa only [train_test_split, List.length_map] using hte
  · simpa only [train_test_split, List.length_map] using htr
  · simp only [train_test_split, List.length_map]
  · simp only [train_test_split, List.length_map]

end HF
